import Mathlib

/-!
Shallow embedding of the PharmaDocs front-end logic
(draft management, document-number generation, file validation,
wavelength validation, concentration auto-calculation, validation-parameter
auto-selection and the dashboard distribution chart), together with theorems
settling the behavioural claims about it.

JavaScript numbers are modelled as `Option ℚ` where `none` plays the role of
`NaN`; DOM string values are modelled as `String` or, where only the parse
class matters, as `FieldVal` below.
-/

set_option autoImplicit false

namespace PharmaDocs

/-! ### JavaScript number helpers -/

/-- A JS number: `none` is `NaN`. -/
abbrev JSNum := Option ℚ

/-- JS truthiness of a number: `0` and `NaN` are falsy, everything else truthy. -/
def jsTruthy : JSNum → Bool
  | none => false
  | some q => decide (q ≠ 0)

/-- JS `x > 0` test: false when `x` is `NaN`. -/
def jsGtZero : JSNum → Bool
  | none => false
  | some q => decide (0 < q)

/-- JS multiplication with `NaN` propagation. -/
def jsMul : JSNum → JSNum → JSNum
  | some a, some b => some (a * b)
  | _, _ => none

/-- JS division with `NaN` propagation. A zero divisor is mapped to `none`;
the guarded call sites below never reach that case. -/
def jsDiv : JSNum → JSNum → JSNum
  | some a, some b => if b = 0 then none else some (a / b)
  | _, _ => none

/-- The integer chosen by `Number.prototype.toFixed` with `f` fraction
digits: the integer `n` minimising `|n / 10^f - q|`, ties resolved to the
larger `n`, which is exactly `⌊q * 10^f + 1/2⌋`. -/
def toFixedInt (f : ℕ) (q : ℚ) : ℤ :=
  ⌊q * (10 : ℚ) ^ f + 1 / 2⌋

/-- Render a natural number of `10^f`-ths as a fixed-point decimal string,
e.g. `formatFixedNat 3 50000 = "50.000"`. -/
def formatFixedNat (f : ℕ) (n : ℕ) : String :=
  let base := 10 ^ f
  let fracDigits := toString (n % base)
  toString (n / base) ++ "." ++
    String.mk (List.replicate (f - fracDigits.length) '0') ++ fracDigits

/-- `q.toFixed(f)` for a rational `q` (sign handled separately). -/
def formatFixed (f : ℕ) (q : ℚ) : String :=
  let n := toFixedInt f q
  if n < 0 then "-" ++ formatFixedNat f (-n).toNat else formatFixedNat f n.toNat

/-- `x.toFixed(f)` on a JS number, `NaN` included. -/
def jsToFixed (f : ℕ) (x : JSNum) : String :=
  match x with
  | none => "NaN"
  | some q => formatFixed f q

/-- Evaluation lemma for `formatFixed` on a nonnegative rational: once the
rounded numerator is pinned between its floor bounds, the rendering reduces
to the decidable `formatFixedNat`. -/
theorem formatFixed_eq_of_bounds (f n : ℕ) (q : ℚ)
    (h1 : (n : ℚ) ≤ q * (10 : ℚ) ^ f + 1 / 2)
    (h2 : q * (10 : ℚ) ^ f + 1 / 2 < (n : ℚ) + 1) :
    formatFixed f q = formatFixedNat f n := by
  have hfl : toFixedInt f q = (n : ℤ) := by
    rw [toFixedInt, Int.floor_eq_iff]
    constructor
    · exact_mod_cast h1
    · push_cast
      exact h2
  rw [formatFixed, hfl]
  have hnn : ¬ ((n : ℤ) < 0) := not_lt.mpr (Int.natCast_nonneg n)
  simp [hnn]

/-! ### Draft management (`DocumentCreationManager`, src/unnamed/part_000)

`autoSaveDraft` runs every 30 seconds and once on `beforeunload`; both
triggers call the same function, which is the one modelled here.
-/

/-- The record written to `localStorage` under the key `documentDraft`. -/
structure DraftRecord where
  timestamp : ℤ
  documentType : String
  formData : List (String × String)
  deriving Repr, DecidableEq

/-- `hasFormData`: true iff the title field or the company-id field holds a
non-empty (truthy) string. -/
def hasFormData (title companyId : String) : Bool :=
  !(title == "") || !(companyId == "")

/-- `autoSaveDraft`: returns the storage slot after the call. When
`hasFormData` is false the function returns early and the slot is
untouched; otherwise a fresh record is written. -/
def autoSaveDraft (title companyId documentType : String)
    (formData : List (String × String)) (now : ℤ)
    (storage : Option DraftRecord) : Option DraftRecord :=
  if hasFormData title companyId then
    some { timestamp := now, documentType := documentType, formData := formData }
  else
    storage

/-- 24 hours in milliseconds, the expiry threshold in `loadDraft`. -/
def draftMaxAgeMs : ℤ := 24 * 60 * 60 * 1000

/-- Outcome of `loadDraft`: the boolean it returns, the storage slot after
the call, whether the restore prompt was shown, and whether the draft was
restored. -/
structure LoadDraftOutcome where
  returned : Bool
  storage : Option DraftRecord
  prompted : Bool
  restored : Bool
  deriving Repr, DecidableEq

/-- `loadDraft`: reads the stored record, deletes it and returns false when
older than 24 hours, otherwise asks the user (modelled by the
`confirmRestore` input) and restores on confirmation. -/
def loadDraft (storage : Option DraftRecord) (now : ℤ)
    (confirmRestore : Bool) : LoadDraftOutcome :=
  match storage with
  | none => ⟨false, none, false, false⟩
  | some d =>
    if now - d.timestamp > draftMaxAgeMs then
      ⟨false, none, false, false⟩
    else if confirmRestore then
      ⟨true, some d, true, true⟩
    else
      ⟨false, some d, true, false⟩

/-! ### Theorems for claims C1 and C7 -/

/-- C1: for a stored draft with timestamp `t` read at load time `now`:
if `now - t` exceeds 24 hours, `loadDraft` deletes the record and returns
false; if `now - t` is at most 24 hours, the user is prompted to confirm
restoration and the record is not deleted by the check. -/
theorem loadDraft_expiry (d : DraftRecord) (now : ℤ) (c : Bool) :
    (now - d.timestamp > draftMaxAgeMs →
      (loadDraft (some d) now c).returned = false ∧
      (loadDraft (some d) now c).storage = none) ∧
    (now - d.timestamp ≤ draftMaxAgeMs →
      (loadDraft (some d) now c).prompted = true ∧
      (loadDraft (some d) now c).storage = some d) := by
  constructor
  · intro h
    simp [loadDraft, h]
  · intro h
    have h' : ¬ now - d.timestamp > draftMaxAgeMs := not_lt.mpr h
    cases c <;> simp [loadDraft, h']

/-- Witness for C1 at concrete inputs: a record aged 25 hours is deleted and
reported absent; a record aged exactly 24 hours is offered and kept. -/
theorem loadDraft_expiry_witness :
    (loadDraft (some ⟨0, "amv", []⟩) 90000000 true).returned = false ∧
    (loadDraft (some ⟨0, "amv", []⟩) 90000000 true).storage = none ∧
    (loadDraft (some ⟨0, "amv", []⟩) 86400000 true).prompted = true ∧
    (loadDraft (some ⟨0, "amv", []⟩) 86400000 true).storage = some ⟨0, "amv", []⟩ := by
  refine ⟨?_, ?_, ?_, ?_⟩
  · exact ((loadDraft_expiry ⟨0, "amv", []⟩ 90000000 true).1 (by decide)).1
  · exact ((loadDraft_expiry ⟨0, "amv", []⟩ 90000000 true).1 (by decide)).2
  · exact ((loadDraft_expiry ⟨0, "amv", []⟩ 86400000 true).2 (by decide)).1
  · exact ((loadDraft_expiry ⟨0, "amv", []⟩ 86400000 true).2 (by decide)).2

/-- C7: on every auto-save trigger a draft is written iff at least one of the
has-content fields (title, company id) is non-empty; an all-empty form
leaves the storage slot untouched, so an all-empty draft is never
persisted. -/
theorem autoSaveDraft_requires_content (title companyId documentType : String)
    (formData : List (String × String)) (now : ℤ) (storage : Option DraftRecord) :
    (title = "" ∧ companyId = "" →
      autoSaveDraft title companyId documentType formData now storage = storage) ∧
    (title ≠ "" ∨ companyId ≠ "" →
      autoSaveDraft title companyId documentType formData now storage =
        some { timestamp := now, documentType := documentType, formData := formData }) := by
  constructor
  · rintro ⟨h1, h2⟩
    simp [autoSaveDraft, hasFormData, h1, h2]
  · intro h
    have : hasFormData title companyId = true := by
      rcases h with h | h <;> simp [hasFormData, h]
    simp [autoSaveDraft, this]

/-- Witness for C7 at concrete inputs: an all-empty form writes nothing; a
form with a non-empty title writes a record. -/
theorem autoSaveDraft_requires_content_witness :
    autoSaveDraft "" "" "amv" [] 1000 none = none ∧
    autoSaveDraft "My doc" "" "amv" [] 1000 none =
      some { timestamp := 1000, documentType := "amv", formData := [] } := by
  constructor
  · exact (autoSaveDraft_requires_content "" "" "amv" [] 1000 none).1 ⟨rfl, rfl⟩
  · exact (autoSaveDraft_requires_content "My doc" "" "amv" [] 1000 none).2
      (Or.inl (by decide))

/-! ### Concentration auto-calculation (`AMVManager`, src/static/js/auth/login.js)

The raw `<input>.value` strings only matter through the pipeline
`parseFloat(el?.value || 0)`, so an input is modelled by its parse class. -/

/-- Parse class of a text input value: empty string, a string parsing to a
number, or a string whose `parseFloat` is `NaN`. -/
inductive FieldVal where
  | empty
  | numeric (q : ℚ)
  | nonNumeric
  deriving Repr, DecidableEq

/-- `parseFloat(el?.value || 0)`: the empty string is falsy, so `|| 0`
substitutes `0`; otherwise `parseFloat` yields the number or `NaN`. -/
def parseFieldOrZero : FieldVal → JSNum
  | .empty => some 0
  | .numeric q => some q
  | .nonNumeric => none

/-- `calculateUVConcentrations`: when the parsed standard weight and the
parsed standard concentration are both `> 0`, computes
`(weightSample / weightStandard) * finalConcStandard` and writes its
`toFixed(3)` into the sample-concentration field, but only when that field
is currently empty. Returns the sample field content after the call. -/
def calculateUVConcentrations (weightStandardF weightSampleF finalConcStandardF : FieldVal)
    (sampleField : String) : String :=
  let weightStandard := parseFieldOrZero weightStandardF
  let weightSample := parseFieldOrZero weightSampleF
  let finalConcStandard := parseFieldOrZero finalConcStandardF
  if jsGtZero weightStandard && jsGtZero finalConcStandard then
    let sampleConc := jsMul (jsDiv weightSample weightStandard) finalConcStandard
    if sampleField == "" then jsToFixed 3 sampleConc else sampleField
  else
    sampleField

/-- `calculateHPLCConcentrations`: textually identical to the UV variant but
reading the `hplc_*` fields. -/
def calculateHPLCConcentrations (weightStandardF weightSampleF finalConcStandardF : FieldVal)
    (sampleField : String) : String :=
  let weightStandard := parseFieldOrZero weightStandardF
  let weightSample := parseFieldOrZero weightSampleF
  let finalConcStandard := parseFieldOrZero finalConcStandardF
  if jsGtZero weightStandard && jsGtZero finalConcStandard then
    let sampleConc := jsMul (jsDiv weightSample weightStandard) finalConcStandard
    if sampleField == "" then jsToFixed 3 sampleConc else sampleField
  else
    sampleField

/-- A parsed input that is not strictly positive: empty (parsing to 0),
non-numeric (parsing to `NaN`), or a number `≤ 0`. -/
def parsedNotPositive : FieldVal → Prop
  | .empty => True
  | .numeric q => q ≤ 0
  | .nonNumeric => True

instance : DecidablePred parsedNotPositive := fun f => by
  cases f <;> simp [parsedNotPositive] <;> infer_instance

/-! ### Theorems for claims C2 and C10 -/

/-- C2: with positive standard weight `w` and positive standard
concentration `c`, the derived sample concentration is
`(s / w) * c` rounded to three decimals, and it is written into the
sample-concentration field only when that field is empty; any existing
value is left unchanged. -/
theorem calculateUVConcentrations_spec (w s c : ℚ) (cur : String)
    (hw : 0 < w) (hc : 0 < c) :
    calculateUVConcentrations (.numeric w) (.numeric s) (.numeric c) cur =
      if cur = "" then formatFixed 3 ((s / w) * c) else cur := by
  have hw0 : w ≠ 0 := ne_of_gt hw
  by_cases hcur : cur = ""
  · simp [calculateUVConcentrations, parseFieldOrZero, jsGtZero, jsMul, jsDiv,
      jsToFixed, hw, hc, hw0, hcur]
  · simp [calculateUVConcentrations, parseFieldOrZero, jsGtZero, jsMul, jsDiv,
      jsToFixed, hw, hc, hw0, hcur]

/-- Witness for C2 at concrete inputs: standardWeight 10, standard
concentration 100, sampleWeight 5 yields "50.000" in an empty field, and a
field already holding "42" is left at "42". -/
theorem calculateUVConcentrations_spec_witness :
    calculateUVConcentrations (.numeric 10) (.numeric 5) (.numeric 100) "" = "50.000" ∧
    calculateUVConcentrations (.numeric 10) (.numeric 5) (.numeric 100) "42" = "42" := by
  constructor
  · rw [calculateUVConcentrations_spec 10 5 100 "" (by norm_num) (by norm_num),
      if_pos rfl, formatFixed_eq_of_bounds 3 50000 _ (by norm_num) (by norm_num)]
    decide
  · rw [calculateUVConcentrations_spec 10 5 100 "42" (by norm_num) (by norm_num),
      if_neg (by decide)]

/-- C10: when the parsed standard weight or the parsed standard
concentration is not strictly positive (zero, empty, or non-numeric), both
concentration calculators perform no computation — in particular no
division by the zero standard weight — and leave the sample field
unchanged. -/
theorem calculateConcentrations_degenerate
    (weightStandardF weightSampleF finalConcStandardF : FieldVal) (cur : String)
    (h : parsedNotPositive weightStandardF ∨ parsedNotPositive finalConcStandardF) :
    calculateUVConcentrations weightStandardF weightSampleF finalConcStandardF cur = cur ∧
    calculateHPLCConcentrations weightStandardF weightSampleF finalConcStandardF cur = cur := by
  have hguard : (jsGtZero (parseFieldOrZero weightStandardF) &&
      jsGtZero (parseFieldOrZero finalConcStandardF)) = false := by
    rcases h with h | h
    · cases weightStandardF with
      | empty => simp [parseFieldOrZero, jsGtZero]
      | nonNumeric => simp [parseFieldOrZero, jsGtZero]
      | numeric q =>
        simp only [parsedNotPositive] at h
        simp [parseFieldOrZero, jsGtZero, not_lt.mpr h]
    · cases finalConcStandardF with
      | empty => simp [parseFieldOrZero, jsGtZero]
      | nonNumeric => simp [parseFieldOrZero, jsGtZero]
      | numeric q =>
        simp only [parsedNotPositive] at h
        simp [parseFieldOrZero, jsGtZero, not_lt.mpr h]
  constructor
  · simp [calculateUVConcentrations, hguard]
  · simp [calculateHPLCConcentrations, hguard]

/-- Witness for C10 at concrete inputs: an empty standard-weight field (and
also a zero one) leaves a sample field holding "7.5" unchanged in both
calculators. -/
theorem calculateConcentrations_degenerate_witness :
    calculateUVConcentrations .empty (.numeric 5) (.numeric 100) "7.5" = "7.5" ∧
    calculateHPLCConcentrations (.numeric 0) (.numeric 5) (.numeric 100) "7.5" = "7.5" := by
  constructor
  · exact (calculateConcentrations_degenerate .empty (.numeric 5) (.numeric 100) "7.5"
      (Or.inl trivial)).1
  · exact (calculateConcentrations_degenerate (.numeric 0) (.numeric 5) (.numeric 100) "7.5"
      (Or.inl le_rfl)).2

/-! ### Wavelength field validation (`AMVManager.validateWavelengthField`) -/

/-- A wavelength input field: the parse class of its value together with
the parsed `min` and `max` attributes; `none` models `parseFloat`
returning `NaN` for a missing or non-numeric attribute. -/
structure WaveField where
  value : FieldVal
  minAttr : Option ℚ
  maxAttr : Option ℚ
  deriving Repr

/-- The field-specific lower-bound error message. -/
def minErrorMsg (m : ℚ) : String := "Value must be at least " ++ toString m

/-- The field-specific upper-bound error message. -/
def maxErrorMsg (m : ℚ) : String := "Value must be no more than " ++ toString m

/-- The `if (max && value > max)` step: fires only when the parsed `max`
attribute is a number (not `NaN`) and non-zero, since both `NaN` and `0`
are falsy in JS. -/
def checkMax (maxAttr : Option ℚ) (v : ℚ) : Bool × Option String :=
  match maxAttr with
  | some m => if m ≠ 0 ∧ m < v then (false, some (maxErrorMsg m)) else (true, none)
  | none => (true, none)

/-- `validateWavelengthField`: a missing field or an empty value is valid;
a non-numeric value fails with a fixed message; otherwise the `min` check
runs before the `max` check, each only when its attribute is truthy. The
result pairs the returned boolean with the error message shown, if any. -/
def validateWavelengthField (field : Option WaveField) : Bool × Option String :=
  match field with
  | none => (true, none)
  | some f =>
    match f.value with
    | .empty => (true, none)
    | .nonNumeric => (false, some "Please enter a valid number")
    | .numeric v =>
      match f.minAttr with
      | some m =>
        if m ≠ 0 ∧ v < m then (false, some (minErrorMsg m)) else checkMax f.maxAttr v
      | none => checkMax f.maxAttr v

/-! ### Theorems for claims C5 and C9 -/

/-- C5: for a wavelength field with declared (non-zero) bounds
`[mn, mx]`: the empty value is valid; a non-numeric value is invalid with
the valid-number message; a numeric value above `mx` is invalid; a numeric
value below `mn` is invalid; and a numeric value within the bounds is
valid with no error. -/
theorem validateWavelengthField_range (mn mx v : ℚ)
    (hmn : mn ≠ 0) (hmx : mx ≠ 0) (hle : mn ≤ mx) :
    validateWavelengthField (some ⟨.empty, some mn, some mx⟩) = (true, none) ∧
    validateWavelengthField (some ⟨.nonNumeric, some mn, some mx⟩) =
      (false, some "Please enter a valid number") ∧
    (mx < v → (validateWavelengthField (some ⟨.numeric v, some mn, some mx⟩)).1 = false) ∧
    (v < mn → (validateWavelengthField (some ⟨.numeric v, some mn, some mx⟩)).1 = false) ∧
    (mn ≤ v → v ≤ mx →
      validateWavelengthField (some ⟨.numeric v, some mn, some mx⟩) = (true, none)) := by
  refine ⟨rfl, rfl, ?_, ?_, ?_⟩
  · intro h
    have h1 : ¬ (v < mn) := not_lt.mpr (le_trans hle (le_of_lt h))
    simp [validateWavelengthField, checkMax, hmx, h1, h]
  · intro h
    simp [validateWavelengthField, hmn, h]
  · intro h1 h2
    have h1' : ¬ (v < mn) := not_lt.mpr h1
    have h2' : ¬ (mx < v) := not_lt.mpr h2
    simp [validateWavelengthField, checkMax, h1', h2']

/-- Witness for C5 with bounds `[200, 400]`: the empty value is valid,
a non-numeric value is invalid with the valid-number message, `500` is
invalid, and `300` is valid. -/
theorem validateWavelengthField_range_witness :
    validateWavelengthField (some ⟨.empty, some 200, some 400⟩) = (true, none) ∧
    validateWavelengthField (some ⟨.nonNumeric, some 200, some 400⟩) =
      (false, some "Please enter a valid number") ∧
    (validateWavelengthField (some ⟨.numeric 500, some 200, some 400⟩)).1 = false ∧
    validateWavelengthField (some ⟨.numeric 300, some 200, some 400⟩) = (true, none) := by
  refine ⟨?_, ?_, ?_, ?_⟩
  · exact (validateWavelengthField_range 200 400 0 (by norm_num) (by norm_num)
      (by norm_num)).1
  · exact (validateWavelengthField_range 200 400 0 (by norm_num) (by norm_num)
      (by norm_num)).2.1
  · exact (validateWavelengthField_range 200 400 500 (by norm_num) (by norm_num)
      (by norm_num)).2.2.1 (by norm_num)
  · exact (validateWavelengthField_range 200 400 300 (by norm_num) (by norm_num)
      (by norm_num)).2.2.2.2 (by norm_num) (by norm_num)

/-- C9: a bound attribute parsing to `0` or to `NaN` (missing) is treated
as no bound at all: a zero or missing `min` makes the validator behave as
if there were no lower bound, a zero or missing `max` as if there were no
upper bound, and with both disabled every numeric value, negatives
included, is valid. -/
theorem validateWavelengthField_zero_bound (v : ℚ) (minA maxA : Option ℚ) :
    ((minA = none ∨ minA = some 0) →
      validateWavelengthField (some ⟨.numeric v, minA, maxA⟩) =
        validateWavelengthField (some ⟨.numeric v, none, maxA⟩)) ∧
    ((maxA = none ∨ maxA = some 0) →
      validateWavelengthField (some ⟨.numeric v, minA, maxA⟩) =
        validateWavelengthField (some ⟨.numeric v, minA, none⟩)) ∧
    ((minA = none ∨ minA = some 0) → (maxA = none ∨ maxA = some 0) →
      validateWavelengthField (some ⟨.numeric v, minA, maxA⟩) = (true, none)) := by
  refine ⟨?_, ?_, ?_⟩
  · rintro (rfl | rfl)
    · rfl
    · simp [validateWavelengthField]
  · rintro (rfl | rfl)
    · rfl
    · cases minA with
      | none => simp [validateWavelengthField, checkMax]
      | some m =>
        by_cases hc : m ≠ 0 ∧ v < m
        · simp [validateWavelengthField, hc]
        · simp [validateWavelengthField, hc, checkMax]
  · rintro (rfl | rfl) (rfl | rfl) <;> simp [validateWavelengthField, checkMax]

/-- Witness for C9: with a `min` attribute of `0` and no `max`, the
negative value `-5` passes validation. -/
theorem validateWavelengthField_zero_bound_witness :
    validateWavelengthField (some ⟨.numeric (-5), some 0, none⟩) = (true, none) :=
  (validateWavelengthField_zero_bound (-5) (some 0) none).2.2 (Or.inr rfl) (Or.inl rfl)

/-! ### Required-file validation (`FileUploadManager`, src/static/js/file-upload.js) -/

/-- A required file input: its display label (the associated `<label>` text
or, failing that, the input name) and whether a file is selected. -/
structure FileInput where
  label : String
  hasFile : Bool
  deriving Repr, DecidableEq

/-- `validateRequiredFiles`: collects the labels of all required inputs
without a selected file and, when any are missing, shows one error message
naming them all and returns false; otherwise returns true with no error. -/
def validateRequiredFiles (requiredInputs : List FileInput) : Bool × Option String :=
  let missing := (requiredInputs.filter fun i => ! i.hasFile).map FileInput.label
  if missing.length > 0 then
    (false, some ("Please upload the following required files: " ++
      String.intercalate ", " missing))
  else
    (true, none)

/-! ### Theorem for claim C4 -/

/-- C4: when `n ≥ 1` required inputs have no file, `validateRequiredFiles`
returns false with exactly one error message naming all `n` missing
inputs; when none are missing it returns true with no error. -/
theorem validateRequiredFiles_spec (requiredInputs : List FileInput) :
    ((requiredInputs.filter fun i => ! i.hasFile) ≠ [] →
      validateRequiredFiles requiredInputs =
        (false, some ("Please upload the following required files: " ++
          String.intercalate ", "
            (((requiredInputs.filter fun i => ! i.hasFile)).map FileInput.label)))) ∧
    ((requiredInputs.filter fun i => ! i.hasFile) = [] →
      validateRequiredFiles requiredInputs = (true, none)) := by
  constructor
  · intro h
    have hlen : (((requiredInputs.filter fun i => ! i.hasFile)).map FileInput.label).length > 0 := by
      simp [List.length_pos, h]
    simp only [validateRequiredFiles, if_pos hlen]
  · intro h
    simp [validateRequiredFiles, h]

/-- Witness for C4: with two missing required inputs among three, the
result is a single failure message naming both, and with every file
present the result is success with no message. -/
theorem validateRequiredFiles_spec_witness :
    validateRequiredFiles [⟨"Specimen A", false⟩, ⟨"Report B", true⟩, ⟨"Summary C", false⟩] =
      (false, some "Please upload the following required files: Specimen A, Summary C") ∧
    validateRequiredFiles [⟨"Specimen A", true⟩, ⟨"Report B", true⟩] = (true, none) := by
  constructor
  · exact ((validateRequiredFiles_spec
      [⟨"Specimen A", false⟩, ⟨"Report B", true⟩, ⟨"Summary C", false⟩]).1
        (by decide)).trans (by decide)
  · exact (validateRequiredFiles_spec [⟨"Specimen A", true⟩, ⟨"Report B", true⟩]).2 (by decide)

/-! ### Validation-parameter auto-selection (`AMVManager.autoSelectValidationParameters`) -/

/-- A `val_params` checkbox: its `value` attribute and its checked state. -/
abbrev Checkbox := String × Bool

/-- The 11-entry parameter list; the source object repeats this same
literal once per instrument type. -/
def defaultValParams : List String :=
  ["specificity", "system_suitability", "system_precision", "method_precision",
   "intermediate_precision", "linearity", "lod_loq", "lod_loq_precision",
   "range", "recovery", "robustness"]

/-- The `validationParameters[instrumentType] || []` lookup. -/
def validationParameters (instrumentType : String) : List String :=
  match instrumentType with
  | "uv" => defaultValParams
  | "aas" => defaultValParams
  | "hplc" => defaultValParams
  | "uplc" => defaultValParams
  | "gc" => defaultValParams
  | "titration" => defaultValParams
  | _ => []

/-- First pass of the auto-selection: every checkbox is unchecked. -/
def uncheckAll (cbs : List Checkbox) : List Checkbox :=
  cbs.map fun cb => (cb.1, false)

/-- Second pass, one parameter at a time: `document.querySelector` returns
the first checkbox whose value matches, and that one is checked. -/
def checkFirst : List Checkbox → String → List Checkbox
  | [], _ => []
  | cb :: rest, p => if cb.1 = p then (cb.1, true) :: rest else cb :: checkFirst rest p

/-- `autoSelectValidationParameters`: when the instrument has a non-empty
parameter list, uncheck every checkbox and then check the listed ones;
otherwise leave the checkboxes as they are. -/
def autoSelectValidationParameters (instrumentType : String)
    (cbs : List Checkbox) : List Checkbox :=
  let selectedParams := validationParameters instrumentType
  if selectedParams.length > 0 then
    selectedParams.foldl checkFirst (uncheckAll cbs)
  else
    cbs

theorem checkFirst_map_fst (cbs : List Checkbox) (p : String) :
    (checkFirst cbs p).map Prod.fst = cbs.map Prod.fst := by
  induction cbs with
  | nil => rfl
  | cons cb rest ih =>
    by_cases h : cb.1 = p
    · simp [checkFirst, h]
    · simp [checkFirst, h, ih]

theorem checkFirst_map (p : String) (ps : List String) :
    ∀ cbs : List Checkbox, (cbs.map Prod.fst).Nodup →
      (checkFirst cbs p).map (fun cb => (cb.1, cb.2 || ps.contains cb.1)) =
        cbs.map (fun cb => (cb.1, cb.2 || (p :: ps).contains cb.1)) := by
  intro cbs
  induction cbs with
  | nil => intro _; rfl
  | cons cb rest ih =>
    intro hnd
    simp only [List.map_cons, List.nodup_cons] at hnd
    obtain ⟨hmem, hnd'⟩ := hnd
    by_cases h : cb.1 = p
    · subst h
      simp only [checkFirst, if_pos rfl, List.map_cons]
      refine congrArg₂ List.cons ?_ ?_
      · simp [List.contains_cons]
      · refine List.map_congr_left fun x hx => ?_
        have hne : x.1 ≠ cb.1 := by
          intro hEq
          exact hmem (hEq ▸ List.mem_map_of_mem Prod.fst hx)
        simp [List.contains_cons, hne]
    · simp only [checkFirst, if_neg h, List.map_cons]
      refine congrArg₂ List.cons ?_ (ih hnd')
      simp [List.contains_cons, h]

theorem foldl_checkFirst (params : List String) :
    ∀ cbs : List Checkbox, (cbs.map Prod.fst).Nodup →
      params.foldl checkFirst cbs =
        cbs.map (fun cb => (cb.1, cb.2 || params.contains cb.1)) := by
  induction params with
  | nil => intro cbs _; simp
  | cons p ps ih =>
    intro cbs hnd
    have hnd2 : ((checkFirst cbs p).map Prod.fst).Nodup := by
      rw [checkFirst_map_fst]; exact hnd
    calc (p :: ps).foldl checkFirst cbs
        = ps.foldl checkFirst (checkFirst cbs p) := rfl
      _ = (checkFirst cbs p).map (fun cb => (cb.1, cb.2 || ps.contains cb.1)) := ih _ hnd2
      _ = cbs.map (fun cb => (cb.1, cb.2 || (p :: ps).contains cb.1)) :=
          checkFirst_map p ps cbs hnd

/-! ### Theorem for claim C6 -/

/-- C6: for each supported instrument type, and whatever the prior checkbox
states were, after the auto-selection a checkbox is checked exactly when
its value is in the fixed per-instrument parameter list: the prior
selection is fully replaced, never merged, so the result is independent of
the state held before the switch. -/
theorem autoSelectValidationParameters_replaces (instrumentType : String)
    (cbs : List Checkbox)
    (ht : instrumentType ∈ ["uv", "aas", "hplc", "uplc", "gc", "titration"])
    (hnd : (cbs.map Prod.fst).Nodup) :
    autoSelectValidationParameters instrumentType cbs =
      cbs.map (fun cb => (cb.1, (validationParameters instrumentType).contains cb.1)) := by
  have hparams : validationParameters instrumentType = defaultValParams := by
    fin_cases ht <;> rfl
  have hlen : (validationParameters instrumentType).length > 0 := by
    rw [hparams]; decide
  have hfst : (uncheckAll cbs).map Prod.fst = cbs.map Prod.fst := by
    simp [uncheckAll]
  have hndu : ((uncheckAll cbs).map Prod.fst).Nodup := by
    rw [hfst]; exact hnd
  simp only [autoSelectValidationParameters, if_pos hlen]
  rw [foldl_checkFirst _ _ hndu]
  simp [uncheckAll, List.map_map, Function.comp]

/-- Witness for C6: switching to `uv` with a prior state that has an
unlisted checkbox checked and a listed one unchecked yields exactly the
per-instrument list, replacing the prior selection. -/
theorem autoSelectValidationParameters_replaces_witness :
    autoSelectValidationParameters "uv"
      [("specificity", false), ("linearity", true), ("custom_check", true)] =
      [("specificity", true), ("linearity", true), ("custom_check", false)] := by
  rw [autoSelectValidationParameters_replaces "uv"
    [("specificity", false), ("linearity", true), ("custom_check", true)]
    (by decide) (by decide)]
  decide

/-! ### Document-number auto-generation (`DocumentCreationManager.generateDocumentNumber`) -/

/-- Outcome of `generateDocumentNumber`: whether a server request was
issued and the document-number field content after the run. Since the
request is asynchronous, the field content at request time and at response
time are separate inputs; the user may have typed in between. -/
structure GenerateOutcome where
  requestIssued : Bool
  finalValue : String
  deriving Repr, DecidableEq

/-- JS `String.prototype.trim`: strips leading and trailing whitespace. -/
def jsTrim (s : String) : String :=
  String.mk (((s.data.dropWhile Char.isWhitespace).reverse.dropWhile
    Char.isWhitespace).reverse)

/-- `generateDocumentNumber`: returns early when the company id or the
document type is missing, or when the field is non-empty at request time.
Otherwise a request is issued and, on a successful response, the returned
number is assigned to the field with no further emptiness check; on a
failed response the field is left as it is. -/
def generateDocumentNumber (companyId documentType fieldAtRequest fieldAtResponse : String)
    (response : Option String) : GenerateOutcome :=
  if companyId = "" ∨ documentType = "" then ⟨false, fieldAtResponse⟩
  else if jsTrim fieldAtRequest ≠ "" then ⟨false, fieldAtResponse⟩
  else
    match response with
    | some n => ⟨true, n⟩
    | none => ⟨true, fieldAtResponse⟩

/-! ### Theorems for claim C3 -/

/-- C3 counterexample: a run with company id and document type set, an
empty field at request time, and the value "USER-7" typed by the user
before the response "DOC-001" arrives: the field is not empty at response
time, yet it is overwritten with the returned number, contradicting the
claim that a concurrent manual edit is never overwritten. -/
theorem generateDocumentNumber_overwrite_counterexample :
    (generateDocumentNumber "c1" "amv" "" "USER-7" (some "DOC-001")).requestIssued = true ∧
    "USER-7" ≠ "" ∧
    (generateDocumentNumber "c1" "amv" "" "USER-7" (some "DOC-001")).finalValue = "DOC-001" ∧
    "DOC-001" ≠ "USER-7" := by
  refine ⟨by decide, by decide, by decide, by decide⟩

/-- C3 amended: a request is issued exactly when the company id and the
document type are set and the field is empty at request time; on a
successful response the returned number is written unconditionally, even
when the user has entered a value meanwhile; when no request is issued, or
the response fails, the field keeps its current content. -/
theorem generateDocumentNumber_amended
    (companyId documentType fieldAtRequest fieldAtResponse : String)
    (response : Option String) :
    ((generateDocumentNumber companyId documentType fieldAtRequest fieldAtResponse
        response).requestIssued = true ↔
      companyId ≠ "" ∧ documentType ≠ "" ∧ jsTrim fieldAtRequest = "") ∧
    (∀ n, response = some n →
      (generateDocumentNumber companyId documentType fieldAtRequest fieldAtResponse
        response).requestIssued = true →
      (generateDocumentNumber companyId documentType fieldAtRequest fieldAtResponse
        response).finalValue = n) ∧
    ((generateDocumentNumber companyId documentType fieldAtRequest fieldAtResponse
        response).requestIssued = false →
      (generateDocumentNumber companyId documentType fieldAtRequest fieldAtResponse
        response).finalValue = fieldAtResponse) ∧
    (response = none →
      (generateDocumentNumber companyId documentType fieldAtRequest fieldAtResponse
        response).finalValue = fieldAtResponse) := by
  by_cases h1 : companyId = "" ∨ documentType = ""
  · have hne : ¬ (companyId ≠ "" ∧ documentType ≠ "" ∧ jsTrim fieldAtRequest = "") := by
      rcases h1 with h | h <;> simp [h]
    simp [generateDocumentNumber, h1, hne]
  · push_neg at h1
    by_cases h2 : jsTrim fieldAtRequest = ""
    · cases response with
      | none => simp [generateDocumentNumber, h1.1, h1.2, h2]
      | some n => simp [generateDocumentNumber, h1.1, h1.2, h2]
    · simp [generateDocumentNumber, h1.1, h1.2, h2]

/-- Witness for the amended C3: with ids set and an empty field the request
is issued and a successful response "DOC-001" lands in the field even
though the user typed "USER-7" meanwhile; with a non-empty field at
request time no request is issued and the field keeps its content. -/
theorem generateDocumentNumber_amended_witness :
    (generateDocumentNumber "c1" "amv" "" "USER-7" (some "DOC-001")).finalValue = "DOC-001" ∧
    (generateDocumentNumber "c1" "amv" "KEEP-1" "KEEP-1" none).requestIssued = false ∧
    (generateDocumentNumber "c1" "amv" "KEEP-1" "KEEP-1" none).finalValue = "KEEP-1" := by
  refine ⟨?_, ?_, ?_⟩
  · exact (generateDocumentNumber_amended "c1" "amv" "" "USER-7" (some "DOC-001")).2.1
      "DOC-001" rfl
      (((generateDocumentNumber_amended "c1" "amv" "" "USER-7" (some "DOC-001")).1).mpr
        ⟨by decide, by decide, by decide⟩)
  · have h := ((generateDocumentNumber_amended "c1" "amv" "KEEP-1" "KEEP-1" none).1)
    cases hr : (generateDocumentNumber "c1" "amv" "KEEP-1" "KEEP-1" none).requestIssued
    · rfl
    · exfalso
      exact absurd (h.mp hr).2.2 (by decide)
  · exact (generateDocumentNumber_amended "c1" "amv" "KEEP-1" "KEEP-1" none).2.2.2 rfl

/-! ### Dashboard distribution chart (`DashboardManager.updateDocumentTypeChart`) -/

/-- `updateDocumentTypeChart`: the chart labels are the keys and the data
array the values of the distribution object, in order. -/
def updateDocumentTypeChart (distribution : List (String × ℚ)) : List String × List ℚ :=
  (distribution.map Prod.fst, distribution.map Prod.snd)

/-- The tooltip total, `data.reduce((a, b) => a + b, 0)`. -/
def reduceSum (data : List ℚ) : ℚ := data.foldl (· + ·) 0

/-- The percentage string in the tooltip label,
`((context.parsed * 100) / total).toFixed(1)`. -/
def tooltipPercent (value : ℚ) (data : List ℚ) : String :=
  formatFixed 1 (value * 100 / reduceSum data)

/-! ### Theorem for claim C8 -/

/-- C8: for every entry of a distribution with positive total, the
displayed percentage is `100 * value / sum(allValues)` rounded to one
decimal place. -/
theorem updateDocumentTypeChart_percentage (distribution : List (String × ℚ))
    (l : String) (v : ℚ) (_hmem : (l, v) ∈ distribution)
    (_hsum : 0 < reduceSum (updateDocumentTypeChart distribution).2) :
    tooltipPercent v (updateDocumentTypeChart distribution).2 =
      formatFixed 1 (100 * v / reduceSum (distribution.map Prod.snd)) := by
  simp [tooltipPercent, updateDocumentTypeChart, mul_comm]

/-- Witness for C8 on the distribution `{A: 3, B: 1}`: the labels read
75.0 and 25.0 percent. -/
theorem updateDocumentTypeChart_percentage_witness :
    tooltipPercent 3 (updateDocumentTypeChart [("A", 3), ("B", 1)]).2 = "75.0" ∧
    tooltipPercent 1 (updateDocumentTypeChart [("A", 3), ("B", 1)]).2 = "25.0" := by
  have hsum : 0 < reduceSum (updateDocumentTypeChart [("A", 3), ("B", 1)]).2 := by
    norm_num [reduceSum, updateDocumentTypeChart]
  constructor
  · rw [updateDocumentTypeChart_percentage [("A", 3), ("B", 1)] "A" 3 (by simp) hsum,
      formatFixed_eq_of_bounds 1 750 _ (by norm_num [reduceSum]) (by norm_num [reduceSum])]
    decide
  · rw [updateDocumentTypeChart_percentage [("A", 3), ("B", 1)] "B" 1 (by simp) hsum,
      formatFixed_eq_of_bounds 1 250 _ (by norm_num [reduceSum]) (by norm_num [reduceSum])]
    decide

end PharmaDocs
